import Mathlib

/-!
Verification development for the Trace Bank fraud-decision pipeline.

Shallow embedding of the scoring, policy and counterfactual modules:
  - backend/decision_engine.py  (make_decision, update_policy, calculate_final_risk)
  - 2/backend/policy_engine.py  (policy, update_policy, decide_action)
  - 2/backend/counterfactual.py (CounterfactualEngine)

Python floats are modelled as rationals; Python round(x, 2) is modelled by
round-half-to-even at two decimal digits.
-/

/-- Executable floor of a rational, equal to the Mathlib floor. -/
def qfloor (x : ℚ) : ℤ := x.num / x.den

/-- Round a rational to the nearest integer, ties going to the even integer,
mirroring the rounding mode of Python round. -/
def rhe (x : ℚ) : ℤ :=
  if x - qfloor x < 1/2 then qfloor x
  else if 1/2 < x - qfloor x then qfloor x + 1
  else if qfloor x % 2 = 0 then qfloor x else qfloor x + 1

/-- Model of Python round(x, 2): round half to even at two decimal digits. -/
def pyRound2 (x : ℚ) : ℚ := (rhe (100 * x) : ℚ) / 100

namespace DecisionEngine

/-- Module-level threshold default BLOCK_THRESHOLD = 80 in decision_engine.py. -/
def BLOCK_THRESHOLD : ℚ := 80

/-- Module-level threshold default REVIEW_THRESHOLD = 50 in decision_engine.py. -/
def REVIEW_THRESHOLD : ℚ := 50

/-- The pair of module-level threshold globals of decision_engine.py. -/
structure DEPolicy where
  block_threshold : ℚ
  review_threshold : ℚ
deriving DecidableEq

/-- Initial global state of decision_engine.py. -/
def deInit : DEPolicy := ⟨BLOCK_THRESHOLD, REVIEW_THRESHOLD⟩

/-- Embedding of decision_engine.update_policy: each argument, when present,
overwrites the corresponding global; no validation is performed. -/
def de_update_policy (st : DEPolicy) (block_threshold review_threshold : Option ℚ) :
    DEPolicy :=
  ⟨block_threshold.getD st.block_threshold, review_threshold.getD st.review_threshold⟩

/-- Embedding of decision_engine.make_decision, with the mutable globals passed
as explicit state. Returns the (action, message) pair of the source. -/
def make_decision (st : DEPolicy) (score : ℚ) : String × String :=
  if score ≥ st.block_threshold then ("BLOCK", "High risk transaction")
  else if score ≥ st.review_threshold then ("REVIEW", "Needs manual review")
  else if score ≥ 90 then ("FRAUD", "Fraud pattern detected")
  else ("APPROVED", "Low risk transaction")

/-- Embedding of decision_engine.calculate_final_risk: weighted sum rounded to
two decimal digits. The source applies no clamping. -/
def calculate_final_risk (txn_risk behavioural_risk fraud_ring_risk : ℚ) : ℚ :=
  pyRound2 (0.4 * txn_risk + 0.3 * behavioural_risk + 0.3 * fraud_ring_risk)

end DecisionEngine

namespace PolicyEngine

/-- The policy dict of 2/backend/policy_engine.py. -/
structure Policy where
  low_threshold : ℚ
  review_threshold : ℚ
  block_threshold : ℚ
deriving DecidableEq

/-- Initial policy values of policy_engine.py: low 30, review 60, block 85. -/
def policyInit : Policy := ⟨30, 60, 85⟩

/-- Embedding of policy_engine.update_policy: overwrites all three thresholds
unconditionally; the source performs no validation and cannot fail. -/
def update_policy (st : Policy) (low review block : ℚ) : Policy :=
  ⟨low, review, block⟩

/-- Embedding of policy_engine.decide_action. -/
def decide_action (st : Policy) (risk_score : ℚ) : String :=
  if risk_score ≥ st.block_threshold then "CRITICAL_FRAUD"
  else if risk_score ≥ st.review_threshold then "BLOCK"
  else if risk_score ≥ st.low_threshold then "REVIEW"
  else "APPROVED"

/-- Severity order of the four actions: APPROVED < REVIEW < BLOCK < CRITICAL_FRAUD. -/
def severity : String → ℕ
  | "CRITICAL_FRAUD" => 3
  | "BLOCK" => 2
  | "REVIEW" => 1
  | _ => 0

end PolicyEngine

namespace Counterfactual

/-- Transaction facts consumed by the counterfactual engine. Only the fields the
source reads are modelled: amount, and the descriptors interpolated into the
bank explanation text. -/
structure Txn where
  amount : ℚ
  location : String
  vpn_detected : Bool
  merchant_category : String
  time_context : String
deriving DecidableEq

/-- The risk_breakdown dict: per-category risk contributions. Source reads the
five keys amount, location, behavior, merchant, velocity with default 0. -/
structure RiskBreakdown where
  amount : ℚ
  location : ℚ
  behavior : ℚ
  merchant : ℚ
  velocity : ℚ
deriving DecidableEq

/-- A customer-facing explanation entry: a dict of three constant strings. The
decline entries store the text under the key suggestion, the approval entry
under the key message; both are modelled by the single field text. -/
structure CustEntry where
  etype : String
  title : String
  text : String
deriving DecidableEq

/-- Instance attribute self.decision_threshold = 60.0 set in
CounterfactualEngine.init: the DECLINED branch starts at risk score 60. -/
def decision_threshold : ℚ := 60

/-- Customer decline suggestion for the amount category (constant dict in the
source, no numbers). -/
def amountSug : CustEntry :=
  ⟨"amount", "Reduce Transaction Amount",
   "Try a smaller amount or split into multiple transactions"⟩

/-- Customer decline suggestion for the location category. -/
def locationSug : CustEntry :=
  ⟨"location", "Check Your Connection",
   "Turn off VPN or proxy if enabled and retry"⟩

/-- Customer decline suggestion for the behavior category. -/
def behaviorSug : CustEntry :=
  ⟨"behavior", "Use a Familiar Device",
   "Try again from your usual device or browser"⟩

/-- Customer decline fallback entry emitted when no category qualifies. -/
def contactSug : CustEntry :=
  ⟨"contact", "Contact Support",
   "Please contact our support team for assistance"⟩

/-- The suggestions list built by generate_decline_counterfactuals_customer
before truncation: one constant entry per category over its mention threshold
(amount gt 5, location gt 10, behavior gt 8), in that fixed order. -/
def decline_customer_pool (rb : RiskBreakdown) : List CustEntry :=
  (if rb.amount > 5 then [amountSug] else []) ++
  (if rb.location > 10 then [locationSug] else []) ++
  (if rb.behavior > 8 then [behaviorSug] else [])

/-- Embedding of CounterfactualEngine.generate_decline_counterfactuals_customer:
returns suggestions[:2] if suggestions else the contact-support fallback. The
transaction, user history and risk score parameters are accepted and unused,
as in the source. -/
def generate_decline_counterfactuals_customer (tx : Txn) (rb : RiskBreakdown)
    (user_history : List ℚ) (risk_score : ℚ) : List CustEntry :=
  let suggestions := decline_customer_pool rb
  if suggestions.isEmpty then [contactSug] else suggestions.take 2

/-- Embedding of CounterfactualEngine.find_optimal_amount: 1.5 times the mean
of the positive amounts among the last 10 history entries; 0.5 times the
current amount on empty history, 0.6 times on zero-valued history. -/
def find_optimal_amount (current_amount : ℚ) (user_history : List ℚ) : ℚ :=
  if user_history.isEmpty then current_amount * 0.5
  else
    let amounts := (user_history.drop (user_history.length - 10)).filter (fun a => a > 0)
    if amounts.isEmpty then current_amount * 0.6
    else (amounts.sum / amounts.length) * 1.5

/-- A bank-facing decline counterfactual entry. The source builds a dict whose
explanation, current, suggested and impact values are f-strings; the numeric
quantities interpolated into those strings are modelled as fields:
riskContribution is the category value of risk_breakdown (the Risk Score
Contribution line and the current field), impactReduction is that value times
the per-category decay factor, projectedScore is max 0 (risk_score minus
impactReduction) (the impact field), and confidence is the hardcoded constant. -/
structure BankDeclineEntry where
  etype : String
  title : String
  riskContribution : ℚ
  impactReduction : ℚ
  projectedScore : ℚ
  confidence : ℚ
deriving DecidableEq

/-- Bank decline entry for the amount category: decay 0.7, confidence 95. The
elided prose also interpolates find_optimal_amount and the rolling average of
the last 10 history amounts. -/
def amountBankEntry (rb : RiskBreakdown) (risk_score : ℚ) : BankDeclineEntry :=
  ⟨"amount", "High-Value Transaction Detected", rb.amount,
   rb.amount * 0.7, max 0 (risk_score - rb.amount * 0.7), 95⟩

/-- Bank decline entry for the location category: decay 0.8, confidence 92. -/
def locationBankEntry (rb : RiskBreakdown) (risk_score : ℚ) : BankDeclineEntry :=
  ⟨"location", "VPN/Proxy Detection - Geolocation Risk", rb.location,
   rb.location * 0.8, max 0 (risk_score - rb.location * 0.8), 92⟩

/-- Bank decline entry for the behavior category: decay 0.6, confidence 85. -/
def behaviorBankEntry (rb : RiskBreakdown) (risk_score : ℚ) : BankDeclineEntry :=
  ⟨"behavior", "Behavioral Anomaly Detected", rb.behavior,
   rb.behavior * 0.6, max 0 (risk_score - rb.behavior * 0.6), 85⟩

/-- Bank decline entry for the merchant category: decay 0.6, confidence 88. -/
def merchantBankEntry (rb : RiskBreakdown) (risk_score : ℚ) : BankDeclineEntry :=
  ⟨"merchant", "High-Risk Merchant Category", rb.merchant,
   rb.merchant * 0.6, max 0 (risk_score - rb.merchant * 0.6), 88⟩

/-- Bank decline entry for the velocity category: decay 0.5, confidence 79. -/
def velocityBankEntry (rb : RiskBreakdown) (risk_score : ℚ) : BankDeclineEntry :=
  ⟨"velocity", "Transaction Velocity Spike", rb.velocity,
   rb.velocity * 0.5, max 0 (risk_score - rb.velocity * 0.5), 79⟩

/-- Embedding of CounterfactualEngine.generate_decline_counterfactuals_bank:
one entry per category over its own threshold (amount gt 5, location gt 5,
behavior gt 5, merchant gt 5, velocity gt 3), evaluated and emitted in that
fixed order, truncated to 4. The sorted_risks binding of the source is dead
code and is omitted. Source returns counterfactuals[:4] if counterfactuals
else []; taking 4 of the empty list is the same. -/
def generate_decline_counterfactuals_bank (tx : Txn) (rb : RiskBreakdown)
    (user_history : List ℚ) (risk_score : ℚ) : List BankDeclineEntry :=
  ((if rb.amount > 5 then [amountBankEntry rb risk_score] else []) ++
   (if rb.location > 5 then [locationBankEntry rb risk_score] else []) ++
   (if rb.behavior > 5 then [behaviorBankEntry rb risk_score] else []) ++
   (if rb.merchant > 5 then [merchantBankEntry rb risk_score] else []) ++
   (if rb.velocity > 3 then [velocityBankEntry rb risk_score] else [])).take 4

/-- Embedding of CounterfactualEngine.generate_approval_explanations_customer:
a single fixed approval message. -/
def generate_approval_explanations_customer (tx : Txn) (rb : RiskBreakdown)
    (risk_score : ℚ) : List CustEntry :=
  [⟨"approval", "Transaction Approved",
    "Your transaction has been processed successfully."⟩]

/-- A bank-facing explanation item: a decline counterfactual entry, or the
approval analysis dict whose modelled payload is the confidence value
100 minus the sum of all category risks (formatted as a percent string in the
source) and the constant positive-factor strings. -/
inductive BankItem where
  | decline (e : BankDeclineEntry)
  | approval (confidence : ℚ) (positive_factors : List String)
deriving DecidableEq

/-- Embedding of CounterfactualEngine.generate_approval_explanations_bank. -/
def generate_approval_explanations_bank (tx : Txn) (rb : RiskBreakdown)
    (risk_score : ℚ) : List BankItem :=
  let positive_factors :=
    (if rb.amount < 5 then ["Amount is within normal spending range"] else []) ++
    (if rb.location < 5 then ["Location matches device history"] else []) ++
    (if rb.behavior < 5 then ["Behavior matches typical patterns"] else []) ++
    (if rb.merchant < 5 then ["Merchant is in typical categories"] else [])
  let positive_factors :=
    if positive_factors.isEmpty then
      ["Transaction matches user profile", "No suspicious patterns detected"]
    else positive_factors
  [.approval (100 - (rb.amount + rb.location + rb.behavior + rb.merchant + rb.velocity))
    positive_factors]

/-- Embedding of CounterfactualEngine.generate_counterfactuals: branches on
risk_score below self.decision_threshold (60.0) and returns the pair
(customer explanations, bank explanations). -/
def generate_counterfactuals (tx : Txn) (risk_score : ℚ) (rb : RiskBreakdown)
    (user_history : List ℚ) : List CustEntry × List BankItem :=
  if risk_score < decision_threshold then
    (generate_approval_explanations_customer tx rb risk_score,
     generate_approval_explanations_bank tx rb risk_score)
  else
    (generate_decline_counterfactuals_customer tx rb user_history risk_score,
     (generate_decline_counterfactuals_bank tx rb user_history risk_score).map .decline)

/-- The churn impact dict of CounterfactualEngine.calculate_churn_impact. The
source formats churn_probability times 100 as a percent string, revenue_at_risk
as a decimal string and retention_score as a string out of 100; the underlying
numeric values are modelled. -/
structure ChurnImpact where
  churn_probability : ℚ
  revenue_at_risk : ℚ
  retention_score : ℚ
  recommendation : String
deriving DecidableEq

/-- Embedding of CounterfactualEngine.calculate_churn_impact: the decline
formula fires only when the decision string is exactly DECLINED; every other
decision string takes the fixed approval estimate. -/
def calculate_churn_impact (decision : String) (risk_score : ℚ)
    (user_value : ℚ := 1000) : ChurnImpact :=
  let p :=
    if decision = "DECLINED" then
      (min 0.5 ((risk_score / 100) * 0.5), min 0.5 ((risk_score / 100) * 0.5) * user_value)
    else ((0.02 : ℚ), (0 : ℚ))
  ⟨p.1, p.2, 100 - p.1 * 100,
   if p.1 > 0.2 then "Consider manual review or outreach" else "Decision appropriate"⟩

/-- A concrete transaction used to instantiate closed statements. -/
def sampleTxn : Txn := ⟨1000, "Mumbai", false, "retail", "NORMAL"⟩

end Counterfactual

open DecisionEngine PolicyEngine Counterfactual

lemma qfloor_eq (x : ℚ) : qfloor x = ⌊x⌋ := (Rat.floor_def).symm

lemma rhe_eq_floor_or_succ (x : ℚ) : rhe x = ⌊x⌋ ∨ rhe x = ⌊x⌋ + 1 := by
  unfold rhe
  rw [qfloor_eq]
  split_ifs <;> simp

lemma rhe_nonneg {x : ℚ} (h : 0 ≤ x) : 0 ≤ rhe x := by
  have hf : 0 ≤ ⌊x⌋ := Int.floor_nonneg.mpr h
  rcases rhe_eq_floor_or_succ x with h1 | h1 <;> omega

lemma rhe_le {x : ℚ} {n : ℤ} (h : x ≤ n) : rhe x ≤ n := by
  have hfl : ⌊x⌋ ≤ n := by
    have := Int.floor_le_floor h
    simpa using this
  unfold rhe
  rw [qfloor_eq]
  split_ifs with h1 h2 h3
  · exact hfl
  · -- here 1/2 < x - ⌊x⌋, so the floor is strictly below n
    have hx : (⌊x⌋ : ℚ) < (n : ℚ) := by
      have hfx : (⌊x⌋ : ℚ) ≤ x := Int.floor_le x
      linarith
    have : ⌊x⌋ < n := by exact_mod_cast hx
    omega
  · exact hfl
  · -- tie case with odd floor: x - ⌊x⌋ = 1/2 exactly, so the floor is below n
    have he : x - ⌊x⌋ = 1/2 := le_antisymm (not_lt.mp h2) (not_lt.mp h1)
    have hx : (⌊x⌋ : ℚ) < (n : ℚ) := by linarith
    have : ⌊x⌋ < n := by exact_mod_cast hx
    omega

lemma pyRound2_nonneg {x : ℚ} (h : 0 ≤ x) : 0 ≤ pyRound2 x := by
  unfold pyRound2
  have : (0 : ℚ) ≤ (rhe (100 * x) : ℚ) := by
    exact_mod_cast rhe_nonneg (by linarith)
  linarith

lemma pyRound2_le_100 {x : ℚ} (h : x ≤ 100) : pyRound2 x ≤ 100 := by
  unfold pyRound2
  have hb : rhe (100 * x) ≤ (10000 : ℤ) := by
    apply rhe_le
    push_cast
    linarith
  have : (rhe (100 * x) : ℚ) ≤ (10000 : ℚ) := by exact_mod_cast hb
  linarith

lemma rhe_intCast (n : ℤ) : rhe (n : ℚ) = n := by
  unfold rhe
  rw [qfloor_eq]
  norm_num

lemma pyRound2_intCast (n : ℤ) : pyRound2 (n : ℚ) = n := by
  unfold pyRound2
  have h : (100 : ℚ) * n = ((100 * n : ℤ) : ℚ) := by push_cast; ring
  rw [h, rhe_intCast]
  push_cast
  ring

/-- C1: the aggregated final risk score equals the fixed convex combination
0.4 times transaction risk plus 0.3 times behavioural risk plus 0.3 times
fraud-ring risk, rounded to two decimal digits, but the source applies no
clamping: at the adversarial input (200, 200, 200), above every category cap,
the result is 200, outside [0,100], refuting the claimed clamp invariant. -/
theorem C1_no_clamp_counterexample :
    DecisionEngine.calculate_final_risk 200 200 200 = 200 ∧
    ¬ DecisionEngine.calculate_final_risk 200 200 200 ≤ 100 := by
  have h : DecisionEngine.calculate_final_risk 200 200 200 = 200 := by
    unfold DecisionEngine.calculate_final_risk
    have hc : (0.4 : ℚ) * 200 + 0.3 * 200 + 0.3 * 200 = ((200 : ℤ) : ℚ) := by norm_num
    rw [hc, pyRound2_intCast]
    norm_num
  refine ⟨h, ?_⟩
  rw [h]
  norm_num

/-- C1 (amended): the final risk score is the convex combination
0.4 txn + 0.3 behavioural + 0.3 fraud-ring rounded to two decimal digits, with
no clamping; it lies in [0,100] whenever each of the three inputs lies in
[0,100], while adversarial inputs above the caps can push it above 100. -/
theorem C1_final_risk_bounded (t b f : ℚ)
    (ht0 : 0 ≤ t) (ht1 : t ≤ 100) (hb0 : 0 ≤ b) (hb1 : b ≤ 100)
    (hf0 : 0 ≤ f) (hf1 : f ≤ 100) :
    0 ≤ DecisionEngine.calculate_final_risk t b f ∧
    DecisionEngine.calculate_final_risk t b f ≤ 100 := by
  unfold DecisionEngine.calculate_final_risk
  constructor
  · exact pyRound2_nonneg (by linarith)
  · exact pyRound2_le_100 (by linarith)

/-- Witness for C1: the bounds hold at the concrete input (50, 50, 50). -/
theorem C1_final_risk_bounded_witness :
    0 ≤ DecisionEngine.calculate_final_risk 50 50 50 ∧
    DecisionEngine.calculate_final_risk 50 50 50 ≤ 100 :=
  C1_final_risk_bounded 50 50 50 (by norm_num) (by norm_num) (by norm_num)
    (by norm_num) (by norm_num) (by norm_num)

/-- C2: update_policy(40, 30, 90) breaks the ordering low ≤ review ≤ block,
yet the source performs no validation: it overwrites the stored triple
(30, 60, 85) with (40, 30, 90) and cannot fail, contradicting the specified
InvalidPolicy rejection with no partial update. -/
theorem C2_update_policy_no_validation :
    PolicyEngine.update_policy PolicyEngine.policyInit 40 30 90 =
      ⟨40, 30, 90⟩ ∧
    PolicyEngine.update_policy PolicyEngine.policyInit 40 30 90 ≠
      PolicyEngine.policyInit ∧
    ¬ (40 : ℚ) ≤ 30 := by
  refine ⟨rfl, ?_, by norm_num⟩
  intro hcontra
  have h40 : (40 : ℚ) = 30 := congrArg PolicyEngine.Policy.low_threshold hcontra
  norm_num at h40

/-- C3: decide_action returns CRITICAL_FRAUD exactly when the score reaches the
block threshold, BLOCK exactly when it reaches the review threshold but not the
block threshold, REVIEW exactly when it reaches the low threshold but neither
higher one, APPROVED otherwise; every boundary comparison uses greater-or-equal
so a tie lands in the higher-severity bucket, and a score equal to the review
threshold never maps to REVIEW. -/
theorem C3_decide_action_boundaries (p : PolicyEngine.Policy) (r : ℚ) :
    (PolicyEngine.decide_action p r = "CRITICAL_FRAUD" ↔ p.block_threshold ≤ r) ∧
    (PolicyEngine.decide_action p r = "BLOCK" ↔
      p.review_threshold ≤ r ∧ r < p.block_threshold) ∧
    (PolicyEngine.decide_action p r = "REVIEW" ↔
      p.low_threshold ≤ r ∧ r < p.review_threshold ∧ r < p.block_threshold) ∧
    (PolicyEngine.decide_action p r = "APPROVED" ↔
      r < p.low_threshold ∧ r < p.review_threshold ∧ r < p.block_threshold) ∧
    PolicyEngine.decide_action p p.review_threshold ≠ "REVIEW" ∧
    (p.review_threshold < p.block_threshold →
      PolicyEngine.decide_action p p.review_threshold = "BLOCK") := by
  refine ⟨?_, ?_, ?_, ?_, ?_, ?_⟩ <;>
    unfold PolicyEngine.decide_action <;>
    split_ifs <;> simp_all

/-- Witness for C3: with the stored defaults (30, 60, 85), a score equal to the
review threshold maps to BLOCK. -/
theorem C3_decide_action_boundaries_witness :
    PolicyEngine.decide_action PolicyEngine.policyInit
      PolicyEngine.policyInit.review_threshold = "BLOCK" :=
  (C3_decide_action_boundaries PolicyEngine.policyInit
    PolicyEngine.policyInit.review_threshold).2.2.2.2.2
    (by norm_num [PolicyEngine.policyInit])

/-- C4: for every threshold triple with low ≤ review ≤ block, decide_action is
monotone in the risk score under the severity order
APPROVED < REVIEW < BLOCK < CRITICAL_FRAUD. -/
theorem C4_decide_action_monotone (p : PolicyEngine.Policy)
    (h1 : p.low_threshold ≤ p.review_threshold)
    (h2 : p.review_threshold ≤ p.block_threshold)
    (r1 r2 : ℚ) (h : r1 ≤ r2) :
    PolicyEngine.severity (PolicyEngine.decide_action p r1) ≤
      PolicyEngine.severity (PolicyEngine.decide_action p r2) := by
  unfold PolicyEngine.decide_action
  split_ifs <;> simp [PolicyEngine.severity] <;> linarith

/-- Witness for C4: monotonicity at the defaults (30, 60, 85) for the pair of
scores 40 and 70. -/
theorem C4_decide_action_monotone_witness :
    PolicyEngine.severity (PolicyEngine.decide_action PolicyEngine.policyInit 40) ≤
      PolicyEngine.severity (PolicyEngine.decide_action PolicyEngine.policyInit 70) :=
  C4_decide_action_monotone PolicyEngine.policyInit
    (by norm_num [PolicyEngine.policyInit]) (by norm_num [PolicyEngine.policyInit])
    40 70 (by norm_num)

/-- C5: the claim that explain branches on the PolicyStore low threshold fails:
at risk score 45, which is at or above the stored low threshold 30, the engine
takes the approval path, because generate_counterfactuals compares against its
own fixed decision_threshold 60.0, not the PolicyStore low threshold. -/
theorem C5_branch_counterexample :
    PolicyEngine.policyInit.low_threshold ≤ 45 ∧
    (Counterfactual.generate_counterfactuals Counterfactual.sampleTxn 45
        ⟨10, 0, 0, 0, 0⟩ []).1 =
      Counterfactual.generate_approval_explanations_customer
        Counterfactual.sampleTxn ⟨10, 0, 0, 0, 0⟩ 45 ∧
    Counterfactual.generate_approval_explanations_customer
        Counterfactual.sampleTxn ⟨10, 0, 0, 0, 0⟩ 45 ≠
      Counterfactual.generate_decline_counterfactuals_customer
        Counterfactual.sampleTxn ⟨10, 0, 0, 0, 0⟩ [] 45 := by
  refine ⟨by norm_num [PolicyEngine.policyInit], ?_, ?_⟩
  · norm_num [Counterfactual.generate_counterfactuals,
      Counterfactual.decision_threshold]
  · decide

/-- C5 (amended): explain branches solely on whether the risk score is below
the engine-private constant decision_threshold = 60.0 (not the PolicyStore low
threshold, which is 30): below it both outputs come from the approval helpers,
at or above it both outputs come from the single decline/counterfactual
helpers, collapsing REVIEW, BLOCK and CRITICAL_FRAUD into one branch. -/
theorem C5_branch_on_decision_threshold (tx : Counterfactual.Txn) (rs : ℚ)
    (rb : Counterfactual.RiskBreakdown) (h : List ℚ) :
    Counterfactual.generate_counterfactuals tx rs rb h =
      (if rs < Counterfactual.decision_threshold then
        (Counterfactual.generate_approval_explanations_customer tx rb rs,
         Counterfactual.generate_approval_explanations_bank tx rb rs)
      else
        (Counterfactual.generate_decline_counterfactuals_customer tx rb h rs,
         (Counterfactual.generate_decline_counterfactuals_bank tx rb h rs).map
           .decline)) ∧
    Counterfactual.decision_threshold = 60 ∧
    PolicyEngine.policyInit.low_threshold = 30 := by
  refine ⟨rfl, rfl, rfl⟩

/-- C6: the decline-path customer explanation emits one fixed, number-free
suggestion per qualifying category (amount over 5, location over 10, behavior
over 8), in the fixed order amount, location, behavior, truncated to two
entries, with a single contact-support fallback when no category qualifies; in
particular the breakdown (amount 10, rest 0) yields exactly the single amount
entry titled Reduce Transaction Amount. -/
theorem C6_customer_decline_suggestions (tx : Counterfactual.Txn)
    (h : List ℚ) (rs : ℚ) (rb : Counterfactual.RiskBreakdown) :
    (Counterfactual.generate_decline_counterfactuals_customer tx rb h rs).length ≤ 2 ∧
    (rb.amount ≤ 5 → rb.location ≤ 10 → rb.behavior ≤ 8 →
      Counterfactual.generate_decline_counterfactuals_customer tx rb h rs =
        [Counterfactual.contactSug]) ∧
    ((5 < rb.amount ∨ 10 < rb.location ∨ 8 < rb.behavior) →
      Counterfactual.generate_decline_counterfactuals_customer tx rb h rs =
        (Counterfactual.decline_customer_pool rb).take 2) ∧
    Counterfactual.generate_decline_counterfactuals_customer tx
        ⟨10, 0, 0, 0, 0⟩ h rs = [Counterfactual.amountSug] ∧
    Counterfactual.amountSug.title = "Reduce Transaction Amount" ∧
    Counterfactual.amountSug.etype = "amount" := by
  refine ⟨?_, ?_, ?_, ?_, rfl, rfl⟩
  · simp only [Counterfactual.generate_decline_counterfactuals_customer]
    split_ifs
    · simp
    · simp
  · intro ha hl hb
    unfold Counterfactual.generate_decline_counterfactuals_customer
      Counterfactual.decline_customer_pool
    rw [if_neg (not_lt.mpr ha), if_neg (not_lt.mpr hl), if_neg (not_lt.mpr hb)]
    simp
  · intro hq
    have hne : Counterfactual.decline_customer_pool rb ≠ [] := by
      unfold Counterfactual.decline_customer_pool
      rcases hq with hx | hx | hx <;> simp [hx]
    unfold Counterfactual.generate_decline_counterfactuals_customer
    rw [if_neg]
    simpa using hne
  · norm_num [Counterfactual.generate_decline_counterfactuals_customer,
      Counterfactual.decline_customer_pool]

/-- Witness for C6: at the breakdown (amount 10, rest 0) some category
qualifies, and the output is the truncated pool. -/
theorem C6_customer_decline_suggestions_witness :
    Counterfactual.generate_decline_counterfactuals_customer
        Counterfactual.sampleTxn ⟨10, 0, 0, 0, 0⟩ [] 70 =
      (Counterfactual.decline_customer_pool ⟨10, 0, 0, 0, 0⟩).take 2 :=
  (C6_customer_decline_suggestions Counterfactual.sampleTxn [] 70
    ⟨10, 0, 0, 0, 0⟩).2.2.1 (Or.inl (by norm_num))

/-- C7: the claim that the bank explanation always contains the numeric
category-risk values fails: at the all-zero breakdown with risk score 70 the
decline path is taken (70 is at or above the decision threshold), the customer
explanation is the contact-support fallback, and the bank explanation is the
empty list, which contains no numeric value at all. -/
theorem C7_bank_empty_counterexample :
    Counterfactual.decision_threshold ≤ 70 ∧
    Counterfactual.generate_counterfactuals Counterfactual.sampleTxn 70
        ⟨0, 0, 0, 0, 0⟩ [] =
      ([Counterfactual.contactSug], []) := by
  constructor
  · norm_num [Counterfactual.decision_threshold]
  · norm_num [Counterfactual.generate_counterfactuals,
      Counterfactual.decision_threshold,
      Counterfactual.generate_decline_counterfactuals_customer,
      Counterfactual.decline_customer_pool,
      Counterfactual.generate_decline_counterfactuals_bank]

/-- C7 (amended): on the decline path every customer-explanation entry is one
of four fixed constant templates carrying no numeric value from the component
risks, and every emitted bank-explanation entry carries the numeric risk value
of its own category; when no category exceeds its bank mention threshold the
bank explanation is empty and contains no numeric values. -/
theorem C7_audience_redaction (tx : Counterfactual.Txn)
    (rb : Counterfactual.RiskBreakdown) (h : List ℚ) (rs : ℚ) :
    (∀ e ∈ Counterfactual.generate_decline_counterfactuals_customer tx rb h rs,
      e = Counterfactual.amountSug ∨ e = Counterfactual.locationSug ∨
      e = Counterfactual.behaviorSug ∨ e = Counterfactual.contactSug) ∧
    (∀ e ∈ Counterfactual.generate_decline_counterfactuals_bank tx rb h rs,
      (e.etype = "amount" ∧ e.riskContribution = rb.amount) ∨
      (e.etype = "location" ∧ e.riskContribution = rb.location) ∨
      (e.etype = "behavior" ∧ e.riskContribution = rb.behavior) ∨
      (e.etype = "merchant" ∧ e.riskContribution = rb.merchant) ∨
      (e.etype = "velocity" ∧ e.riskContribution = rb.velocity)) := by
  constructor
  · intro e he
    simp only [Counterfactual.generate_decline_counterfactuals_customer,
      Counterfactual.decline_customer_pool] at he
    split_ifs at he <;> simp_all <;> tauto
  · intro e he
    unfold Counterfactual.generate_decline_counterfactuals_bank at he
    have hmem := List.take_subset 4 _ he
    simp only [List.mem_append] at hmem
    rcases hmem with ((((h1 | h1) | h1) | h1) | h1) <;>
      split_ifs at h1 <;> simp_all [Counterfactual.amountBankEntry,
        Counterfactual.locationBankEntry, Counterfactual.behaviorBankEntry,
        Counterfactual.merchantBankEntry, Counterfactual.velocityBankEntry]

/-- Witness for C7: at the breakdown (amount 10, rest 0) the single customer
entry is one of the four constant templates. -/
theorem C7_audience_redaction_witness :
    Counterfactual.amountSug = Counterfactual.amountSug ∨
    Counterfactual.amountSug = Counterfactual.locationSug ∨
    Counterfactual.amountSug = Counterfactual.behaviorSug ∨
    Counterfactual.amountSug = Counterfactual.contactSug :=
  (C7_audience_redaction Counterfactual.sampleTxn ⟨10, 0, 0, 0, 0⟩ [] 70).1
    Counterfactual.amountSug
    (by norm_num [Counterfactual.generate_decline_counterfactuals_customer,
      Counterfactual.decline_customer_pool])

/-- C8: evaluating the churn estimate at the decline-class action BLOCK with
risk score 100 and user value 1000: the source compares the decision string
against the literal DECLINED, which no decision function of the repository
ever produces, so BLOCK falls into the approval branch with churn probability
0.02 and revenue at risk 0, not the claimed 0.5 and 500; the literal DECLINED
itself does produce 0.5 and 500. -/
theorem C8_churn_block_eval :
    (Counterfactual.calculate_churn_impact "BLOCK" 100 1000).churn_probability
        = 0.02 ∧
    (Counterfactual.calculate_churn_impact "BLOCK" 100 1000).revenue_at_risk
        = 0 ∧
    (Counterfactual.calculate_churn_impact "DECLINED" 100 1000).churn_probability
        = 0.5 ∧
    (Counterfactual.calculate_churn_impact "DECLINED" 100 1000).revenue_at_risk
        = 500 := by
  refine ⟨by simp [Counterfactual.calculate_churn_impact],
    by simp [Counterfactual.calculate_churn_impact], ?_, ?_⟩ <;>
    norm_num [Counterfactual.calculate_churn_impact]

/-- C9: explain is deterministic: two calls of generate_counterfactuals with
identical transaction, risk score, risk breakdown and user history inputs
return identical (customer, bank) outputs; the embedding of the production
path is a pure function with no source of randomness. -/
theorem C9_explain_deterministic (tx tx2 : Counterfactual.Txn) (rs rs2 : ℚ)
    (rb rb2 : Counterfactual.RiskBreakdown) (h h2 : List ℚ)
    (htx : tx = tx2) (hrs : rs = rs2) (hrb : rb = rb2) (hh : h = h2) :
    Counterfactual.generate_counterfactuals tx rs rb h =
      Counterfactual.generate_counterfactuals tx2 rs2 rb2 h2 := by
  subst htx hrs hrb hh
  rfl

/-- Witness for C9: determinism at a concrete repeated call. -/
theorem C9_explain_deterministic_witness :
    Counterfactual.generate_counterfactuals Counterfactual.sampleTxn 70
        ⟨10, 0, 0, 0, 0⟩ [] =
      Counterfactual.generate_counterfactuals Counterfactual.sampleTxn 70
        ⟨10, 0, 0, 0, 0⟩ [] :=
  C9_explain_deterministic Counterfactual.sampleTxn Counterfactual.sampleTxn
    70 70 ⟨10, 0, 0, 0, 0⟩ ⟨10, 0, 0, 0, 0⟩ [] [] rfl rfl rfl rfl

/-- C10: whenever the review threshold or the block threshold is at most 90
(the module defaults are 50 and 80), make_decision never returns FRAUD: the
score at least 90 branch is shadowed by the earlier threshold comparisons, so
the action is always APPROVED, REVIEW or BLOCK. -/
theorem C10_fraud_branch_shadowed (st : DecisionEngine.DEPolicy) (score : ℚ)
    (h : st.review_threshold ≤ 90 ∨ st.block_threshold ≤ 90) :
    (DecisionEngine.make_decision st score).1 = "APPROVED" ∨
    (DecisionEngine.make_decision st score).1 = "REVIEW" ∨
    (DecisionEngine.make_decision st score).1 = "BLOCK" := by
  unfold DecisionEngine.make_decision
  split_ifs with h1 h2 h3 <;> simp
  rcases h with hr | hb <;> [linarith; linarith]

/-- Witness for C10: with the default thresholds (block 80, review 50) the
score 95 yields BLOCK, not FRAUD. -/
theorem C10_fraud_branch_shadowed_witness :
    (DecisionEngine.make_decision DecisionEngine.deInit 95).1 = "APPROVED" ∨
    (DecisionEngine.make_decision DecisionEngine.deInit 95).1 = "REVIEW" ∨
    (DecisionEngine.make_decision DecisionEngine.deInit 95).1 = "BLOCK" :=
  C10_fraud_branch_shadowed DecisionEngine.deInit 95
    (Or.inl (by norm_num [DecisionEngine.deInit, DecisionEngine.REVIEW_THRESHOLD]))
